import Mathlib

/-!
Verification development for the xerror library: a structured-error value
wrapping a rich-status representation (code, message, ordered list of typed
detail payloads), with mutation/query operations, a severity field, a
details-hidden flag, named constructors and two boundary adapters.

The embedding follows the current (uncommented) sources: the `Error` type and
its detail-mutation methods in xerror.go, the constructor factory in
factory.go, the options-struct constructor wrappers, the gRPC interceptor and
the HTTP responder.

A load-bearing fact about the rich-status collaborator
(google.golang.org/grpc/status): a status stores its detail payloads
serialized (as protobuf `Any` values); `Status.Details()` unmarshals a fresh
copy of every payload on each call, and `Status.WithDetails` marshals and
appends. Consequently, in the mutation methods of xerror.go, a write such as
`existing.FieldViolations = append(existing.FieldViolations, ...)` performed
on a message obtained from `Details()` lands on that freshly unmarshalled
copy and is discarded; the status held by the error value is unchanged on
those code paths. The embedding below reproduces this observable behaviour
and marks every such spot with a comment.
-/

/-- The classification codes (google.golang.org/grpc/codes). `ok` is carried
along because the method `WithDetails` of the collaborator refuses to attach details to an
OK status, which the source turns into a panic. -/
inductive Code
  | ok
  | cancelled
  | unknown
  | invalidArgument
  | deadlineExceeded
  | notFound
  | alreadyExists
  | permissionDenied
  | resourceExhausted
  | failedPrecondition
  | aborted
  | outOfRange
  | unimplemented
  | internalErr
  | unavailable
  | dataLoss
  | unauthenticated
  deriving DecidableEq, BEq, Repr

/-- LogLevel from xerror.go (LogLevelUnspecified .. LogLevelError). -/
inductive LogLevel
  | unspecified
  | debug
  | info
  | warn
  | error
  deriving DecidableEq, BEq, Repr

/-- errdetails.BadRequest_FieldViolation. -/
structure BadRequestFieldViolation where
  field : String
  description : String
  deriving DecidableEq, Repr

/-- errdetails.BadRequest: a group holding an ordered list of field violations. -/
structure BadRequestDetail where
  fieldViolations : List BadRequestFieldViolation
  deriving DecidableEq, Repr

/-- errdetails.PreconditionFailure_Violation. -/
structure PreconditionFailureViolation where
  description : String
  subject : String
  typ : String
  deriving DecidableEq, Repr

/-- errdetails.PreconditionFailure. -/
structure PreconditionFailureDetail where
  violations : List PreconditionFailureViolation
  deriving DecidableEq, Repr

/-- errdetails.ErrorInfo. Metadata is modelled as an association list of the
already string-coerced key/value pairs (the source coerces values with
fmt.Sprintf before storing them). -/
structure ErrorInfoDetail where
  domain : String
  reason : String
  metadata : List (String × String)
  deriving DecidableEq, Repr

/-- errdetails.QuotaFailure_Violation. -/
structure QuotaFailureViolation where
  subject : String
  description : String
  deriving DecidableEq, Repr

/-- errdetails.QuotaFailure. -/
structure QuotaFailureDetail where
  violations : List QuotaFailureViolation
  deriving DecidableEq, Repr

/-- errdetails.ResourceInfo (a detail payload; note the proto carries a single
resource, there is no inner list). -/
structure ResourceInfoDetail where
  description : String
  resourceName : String
  resourceType : String
  owner : String
  deriving DecidableEq, Repr

/-- errdetails.DebugInfo. -/
structure DebugInfoDetail where
  detail : String
  stackEntries : List String
  deriving DecidableEq, Repr

/-- A typed detail payload attached to a status: the kinds used by xerror. -/
inductive Detail
  | badRequest (b : BadRequestDetail)
  | preconditionFailure (p : PreconditionFailureDetail)
  | errorInfo (e : ErrorInfoDetail)
  | quotaFailure (q : QuotaFailureDetail)
  | resourceInfo (r : ResourceInfoDetail)
  | debugInfo (d : DebugInfoDetail)
  deriving DecidableEq, Repr

/-- Kind discriminator used by the redaction operation. -/
def Detail.isErrorInfo : Detail → Bool
  | .errorInfo _ => true
  | _ => false

/-- Kind discriminator used by the redaction operation. -/
def Detail.isDebugInfo : Detail → Bool
  | .debugInfo _ => true
  | _ => false

/-- Kind discriminator for ResourceInfo payloads. -/
def Detail.isResourceInfo : Detail → Bool
  | .resourceInfo _ => true
  | _ => false

/-- Kind discriminator for BadRequest payloads. -/
def Detail.isBadRequest : Detail → Bool
  | .badRequest _ => true
  | _ => false

/-- The rich-status collaborator (google.golang.org/grpc/status.Status):
code, message and the ordered list of attached detail payloads. The list
stands for the serialized `Any` payloads; enumeration returns copies, which in
this value-based embedding is automatic. -/
structure Status where
  code : Code
  message : String
  details : List Detail
  deriving DecidableEq, Repr

/-- status.New(code, msg). -/
def statusNew (code : Code) (message : String) : Status :=
  { code := code, message := message, details := [] }

/-- Status.WithDetails: refuses when the code is OK (the collaborator returns
an error, which every call site in xerror.go turns into a panic), otherwise
appends the marshalled payload. -/
def Status.withDetails (s : Status) (d : Detail) : Except String Status :=
  if s.code = Code.ok then
    Except.error "no error details for status with code OK"
  else
    Except.ok { s with details := s.details ++ [d] }

/-- The structured-error value (xerror.go): the wrapped status, the log
level and the details-hidden flag. -/
structure Error where
  status : Status
  logLevel : LogLevel
  detailsHidden : Bool
  deriving DecidableEq, Repr

/-- findBadRequest (xerror.go): first BadRequest payload among the status
details, if any. The source returns a pointer to the message that
`Status.Details()` freshly unmarshalled, together with errNotFound on
absence; the Option models that pair. -/
def Error.findBadRequest (e : Error) : Option BadRequestDetail :=
  e.status.details.findSome? fun d =>
    match d with
    | .badRequest b => some b
    | _ => none

/-- findDebugInfo (xerror.go). -/
def Error.findDebugInfo (e : Error) : Option DebugInfoDetail :=
  e.status.details.findSome? fun d =>
    match d with
    | .debugInfo b => some b
    | _ => none

/-- findPreconditionFailure (xerror.go). -/
def Error.findPreconditionFailure (e : Error) : Option PreconditionFailureDetail :=
  e.status.details.findSome? fun d =>
    match d with
    | .preconditionFailure b => some b
    | _ => none

/-- findErrorInfo (xerror.go). -/
def Error.findErrorInfo (e : Error) : Option ErrorInfoDetail :=
  e.status.details.findSome? fun d =>
    match d with
    | .errorInfo b => some b
    | _ => none

/-- findQuotaFailure (xerror.go). -/
def Error.findQuotaFailure (e : Error) : Option QuotaFailureDetail :=
  e.status.details.findSome? fun d =>
    match d with
    | .quotaFailure b => some b
    | _ => none

/-- BadRequestViolation (factory.go): caller-facing input record. -/
structure BadRequestViolation where
  field : String
  description : String
  deriving DecidableEq, Repr

/-- PreconditionViolation (factory.go). -/
structure PreconditionViolation where
  description : String
  subject : String
  typ : String
  deriving DecidableEq, Repr

/-- QuotaViolation (xerror.go). -/
structure QuotaViolation where
  subject : String
  description : String
  deriving DecidableEq, Repr

/-- ResourceInfo (factory.go): caller-facing input record. -/
structure ResourceInfo where
  description : String
  resourceName : String
  resourceType : String
  owner : String
  deriving DecidableEq, Repr

/-- The package-level factory value set by Init(domain). -/
structure Factory where
  domain : String
  deriving DecidableEq, Repr

/-- AddBadRequestViolations (xerror.go, lines 176-192). When no BadRequest
group exists the converted violations are attached as a new group (a failure
of WithDetails is a panic in the source, modelled as `Except.error`). When a
group exists, the source appends to `existing.FieldViolations` where
`existing` is the copy `Status.Details()` unmarshalled inside findBadRequest;
that write never reaches `e.status`, so on this path the stored error value
is observably unchanged. -/
def Error.addBadRequestViolations (e : Error) (violations : List BadRequestViolation) :
    Except String Error :=
  let violationspb := violations.map fun v =>
    BadRequestFieldViolation.mk v.field v.description
  match e.findBadRequest with
  | none =>
    (e.status.withDetails (.badRequest ⟨violationspb⟩)).map fun st => { e with status := st }
  | some _existing =>
    -- existing.FieldViolations = append(existing.FieldViolations, violationspb...)
    -- mutates the unmarshalled copy only; e.status keeps its serialized details.
    Except.ok e

/-- AddPreconditionViolations (xerror.go): same shape as
addBadRequestViolations, including the discarded write on the
existing-group path. -/
def Error.addPreconditionViolations (e : Error) (violations : List PreconditionViolation) :
    Except String Error :=
  let violationspb := violations.map fun v =>
    PreconditionFailureViolation.mk v.description v.subject v.typ
  match e.findPreconditionFailure with
  | none =>
    (e.status.withDetails (.preconditionFailure ⟨violationspb⟩)).map fun st =>
      { e with status := st }
  | some _existing =>
    Except.ok e

/-- SetErrorInfo (xerror.go, lines 224-248): no-op when reason is empty;
empty domain falls back to the domain of the factory; when no ErrorInfo group
exists a new one is attached. When a group exists the source assigns
Domain/Reason/Metadata on the copy Details() unmarshalled, so the stored
status is observably unchanged on that path. The package-level `maker` is
passed explicitly. -/
def Error.setErrorInfo (e : Error) (maker : Factory) (domain reason : String)
    (metadata : List (String × String)) : Except String Error :=
  if reason = "" then
    Except.ok e
  else
    let domain := if domain = "" then maker.domain else domain
    match e.findErrorInfo with
    | none =>
      (e.status.withDetails (.errorInfo ⟨domain, reason, metadata⟩)).map fun st =>
        { e with status := st }
    | some _existing =>
      -- existing.Domain/Reason/Metadata are assigned on the unmarshalled copy.
      Except.ok e

/-- AddResourceInfos (xerror.go, lines 258-272): attaches one new
ResourceInfo payload per supplied info, each via WithDetails; there is no
lookup of an existing group. -/
def Error.addResourceInfos (e : Error) : List ResourceInfo → Except String Error
  | [] => Except.ok e
  | info :: rest =>
    match e.status.withDetails
        (.resourceInfo ⟨info.description, info.resourceName, info.resourceType, info.owner⟩) with
    | .error msg => Except.error msg     -- the Go loop panics here
    | .ok st => Error.addResourceInfos { e with status := st } rest

/-- SetDebugInfo (xerror.go, lines 285-303): no-op when detail is empty; when
no DebugInfo group exists a new one is attached. When a group exists the
source assigns Detail/StackEntries on the copy Details() unmarshalled, so the
stored status is observably unchanged on that path. -/
def Error.setDebugInfo (e : Error) (detail : String) (stackEntries : List String) :
    Except String Error :=
  if detail = "" then
    Except.ok e
  else
    match e.findDebugInfo with
    | none =>
      (e.status.withDetails (.debugInfo ⟨detail, stackEntries⟩)).map fun st =>
        { e with status := st }
    | some _existing =>
      -- existing.Detail / existing.StackEntries are assigned on the copy.
      Except.ok e

/-- AddQuotaViolations (xerror.go): same shape as addBadRequestViolations. -/
def Error.addQuotaViolations (e : Error) (violations : List QuotaViolation) :
    Except String Error :=
  let violationspb := violations.map fun v => QuotaFailureViolation.mk v.subject v.description
  match e.findQuotaFailure with
  | none =>
    (e.status.withDetails (.quotaFailure ⟨violationspb⟩)).map fun st => { e with status := st }
  | some _existing =>
    Except.ok e

/-- SimpleOptions (factory.go): the cause error (None models a nil error;
Some carries the text err.Error() would return) and the log level. -/
structure SimpleOptions where
  error : Option String
  logLevel : LogLevel
  deriving DecidableEq, Repr

/-- ErrorInfoOptions (factory.go). -/
structure ErrorInfoOptions where
  error : Option String
  logLevel : LogLevel
  reason : String
  metadata : List (String × String)
  deriving DecidableEq, Repr

/-- QuotaFailureOptions (factory.go). -/
structure QuotaFailureOptions where
  error : Option String
  quotaViolation : QuotaViolation
  logLevel : LogLevel
  deriving DecidableEq, Repr

/-- QuotaFailureBatchOptions (factory.go). -/
structure QuotaFailureBatchOptions where
  error : Option String
  quotaViolations : List QuotaViolation
  logLevel : LogLevel
  deriving DecidableEq, Repr

/-- newErrorWithHiddenDetails (factory.go, lines 403-419): nil cause yields a
nil error value; an unspecified log level defaults to LogLevelError; the
status message is the text of the cause verbatim and the details-hidden flag is
set at construction. -/
def Factory.newErrorWithHiddenDetails (_f : Factory) (code : Code) (opts : SimpleOptions) :
    Option Error :=
  match opts.error with
  | none => none
  | some msg =>
    let logLevel : LogLevel :=
      match opts.logLevel with
      | .unspecified => .error
      | other => other
    some { status := statusNew code msg, logLevel := logLevel, detailsHidden := true }

/-- newServerDataLoss (factory.go). -/
def Factory.newServerDataLoss (f : Factory) (opts : SimpleOptions) : Option Error :=
  f.newErrorWithHiddenDetails Code.dataLoss opts

/-- newUnknown (factory.go). -/
def Factory.newUnknown (f : Factory) (opts : SimpleOptions) : Option Error :=
  f.newErrorWithHiddenDetails Code.unknown opts

/-- newInternalError (factory.go). -/
def Factory.newInternalError (f : Factory) (opts : SimpleOptions) : Option Error :=
  f.newErrorWithHiddenDetails Code.internalErr opts

/-- newUnavailable (factory.go). -/
def Factory.newUnavailable (f : Factory) (opts : SimpleOptions) : Option Error :=
  f.newErrorWithHiddenDetails Code.unavailable opts

/-- newDeadlineExceeded (factory.go). -/
def Factory.newDeadlineExceeded (f : Factory) (opts : SimpleOptions) : Option Error :=
  f.newErrorWithHiddenDetails Code.deadlineExceeded opts

/-- newErrorInfoError (factory.go, lines 394-401): builds a status carrying
the text of the cause verbatim and attaches an ErrorInfo group via SetErrorInfo.
A nil cause would make the Go code dereference a nil pointer in
opts.Error.Error(), modelled as `none`; a SetErrorInfo panic (impossible here
since the code is never OK) is modelled the same way. -/
def Factory.newErrorInfoError (f : Factory) (code : Code) (opts : ErrorInfoOptions) :
    Option Error :=
  match opts.error with
  | none => none
  | some msg =>
    let e : Error := { status := statusNew code msg, logLevel := opts.logLevel,
                       detailsHidden := false }
    match e.setErrorInfo f f.domain opts.reason opts.metadata with
    | .ok e => some e
    | .error _ => none

/-- newUnauthenticatedError (factory.go). -/
def Factory.newUnauthenticatedError (f : Factory) (opts : ErrorInfoOptions) : Option Error :=
  f.newErrorInfoError Code.unauthenticated opts

/-- newPermissionDeniedError (factory.go). -/
def Factory.newPermissionDeniedError (f : Factory) (opts : ErrorInfoOptions) : Option Error :=
  f.newErrorInfoError Code.permissionDenied opts

/-- newAborted (factory.go). -/
def Factory.newAborted (f : Factory) (opts : ErrorInfoOptions) : Option Error :=
  f.newErrorInfoError Code.aborted opts

/-- newResourceExhausted (factory.go). -/
def Factory.newResourceExhausted (f : Factory) (opts : ErrorInfoOptions) : Option Error :=
  f.newErrorInfoError Code.resourceExhausted opts

/-- newRequestDataLoss (factory.go). -/
def Factory.newRequestDataLoss (f : Factory) (opts : ErrorInfoOptions) : Option Error :=
  f.newErrorInfoError Code.dataLoss opts

/-- newQuotaFailure (factory.go): a RESOURCE_EXHAUSTED status carrying the
text of the cause verbatim, with one quota violation attached. -/
def Factory.newQuotaFailure (_f : Factory) (opts : QuotaFailureOptions) : Option Error :=
  match opts.error with
  | none => none
  | some msg =>
    let e : Error := { status := statusNew Code.resourceExhausted msg,
                       logLevel := opts.logLevel, detailsHidden := false }
    match e.addQuotaViolations [opts.quotaViolation] with
    | .ok e => some e
    | .error _ => none

/-- newQuotaFailureBatch (factory.go). -/
def Factory.newQuotaFailureBatch (_f : Factory) (opts : QuotaFailureBatchOptions) :
    Option Error :=
  match opts.error with
  | none => none
  | some msg =>
    let e : Error := { status := statusNew Code.resourceExhausted msg,
                       logLevel := opts.logLevel, detailsHidden := false }
    match e.addQuotaViolations opts.quotaViolations with
    | .ok e => some e
    | .error _ => none

/-- newCanceledError (factory.go, lines 311-318): a CANCELLED status with the
canonical message and the caller-specified log level; no details, not hidden. -/
def Factory.newCanceledError (_f : Factory) (logLevel : LogLevel) : Error :=
  { status := statusNew Code.cancelled "request canceled by the client",
    logLevel := logLevel, detailsHidden := false }

/-- newNotImplemented (factory.go). -/
def Factory.newNotImplemented (_f : Factory) (logLevel : LogLevel) : Error :=
  { status := statusNew Code.unimplemented "not implemented",
    logLevel := logLevel, detailsHidden := false }

/-- Modelled from the spec: the query method isDirectlyRetryable of the
structured-error value. Its method body is absent from src (only README call
sites and a commented-out draft remain); the spec states it is true iff the
status code is UNAVAILABLE. -/
def Error.isDirectlyRetryable (e : Error) : Bool :=
  e.status.code == Code.unavailable

/-- Modelled from the spec: the query method isRetryableAtHigherLevel of the
structured-error value (body absent from src); the spec states it is true iff
the status code is RESOURCE_EXHAUSTED or ABORTED. -/
def Error.isRetryableAtHigherLevel (e : Error) : Bool :=
  e.status.code == Code.resourceExhausted || e.status.code == Code.aborted

/-- isDetailsHidden: returns the details-hidden flag. -/
def Error.isDetailsHidden (e : Error) : Bool :=
  e.detailsHidden

/-- Modelled from the spec: removeSensitiveDetails of the structured-error
value (its body is absent from src; only call sites in the gRPC interceptor
and the HTTP responder remain). Per the spec it eagerly strips ErrorInfo and
DebugInfo groups, and only those two kinds, from the details collection,
preserving the order of the remaining groups. -/
def Error.removeSensitiveDetails (e : Error) : Error :=
  { e with status :=
      { e.status with details :=
          e.status.details.filter fun d => !(d.isErrorInfo || d.isDebugInfo) } }

/-- The Go name of a code, as codes.Code.String() renders it. -/
def Code.goString : Code → String
  | .ok => "OK"
  | .cancelled => "Canceled"
  | .unknown => "Unknown"
  | .invalidArgument => "InvalidArgument"
  | .deadlineExceeded => "DeadlineExceeded"
  | .notFound => "NotFound"
  | .alreadyExists => "AlreadyExists"
  | .permissionDenied => "PermissionDenied"
  | .resourceExhausted => "ResourceExhausted"
  | .failedPrecondition => "FailedPrecondition"
  | .aborted => "Aborted"
  | .outOfRange => "OutOfRange"
  | .unimplemented => "Unimplemented"
  | .internalErr => "Internal"
  | .unavailable => "Unavailable"
  | .dataLoss => "DataLoss"
  | .unauthenticated => "Unauthenticated"

/-- The numeric value of a code (google.golang.org/grpc/codes). -/
def Code.number : Code → Nat
  | .ok => 0
  | .cancelled => 1
  | .unknown => 2
  | .invalidArgument => 3
  | .deadlineExceeded => 4
  | .notFound => 5
  | .alreadyExists => 6
  | .permissionDenied => 7
  | .resourceExhausted => 8
  | .failedPrecondition => 9
  | .aborted => 10
  | .outOfRange => 11
  | .unimplemented => 12
  | .internalErr => 13
  | .unavailable => 14
  | .dataLoss => 15
  | .unauthenticated => 16

/-- upperSnakeCaseFrom (the helper of the HTTP responder): inserts an
underscore before every non-leading upper-case letter and upper-cases
everything. -/
def upperSnakeCaseFrom (s : String) : String :=
  let step := fun (acc : List Char × Nat) (r : Char) =>
    let result := acc.1
    let i := acc.2
    let result := if r.isUpper && i > 0 then result ++ ['_'] else result
    (result ++ [r.toUpper], i + 1)
  String.mk (s.data.foldl step ([], 0)).1

/-- HTTPStatusFromCode (grpc-ecosystem/grpc-gateway v2 runtime), the
conventional HTTP mapping the responder applies, including the non-standard
499 for CANCELLED; the responder tests of the repository pin these values
(499 cancelled, 504 deadline exceeded, 429 resource exhausted, ...). -/
def HTTPStatusFromCode : Code → Nat
  | .ok => 200
  | .cancelled => 499
  | .unknown => 500
  | .invalidArgument => 400
  | .deadlineExceeded => 504
  | .notFound => 404
  | .alreadyExists => 409
  | .permissionDenied => 403
  | .unauthenticated => 401
  | .resourceExhausted => 429
  | .failedPrecondition => 400
  | .aborted => 409
  | .outOfRange => 400
  | .unimplemented => 501
  | .internalErr => 500
  | .unavailable => 503
  | .dataLoss => 500

/-- An inbound Go error at the HTTP boundary: either an xerror value or an
plain non-xerror error (RespondFailed tests this with errors.As). -/
inductive GoError
  | xerr (e : Error)
  | plainError (msg : String)

/-- The JSON body the HTTP responder emits:
code, message, UPPER_SNAKE_CASE status name, and the detail payloads. -/
structure ErrorBody where
  code : Nat
  message : String
  status : String
  details : List Detail
  deriving DecidableEq, Repr

/-- The observable HTTP response written by the responder: the HTTP status
code and the structured body when one is produced. -/
structure HTTPResponse where
  statusCode : Nat
  body : Option ErrorBody
  deriving DecidableEq, Repr

/-- RespondFailed (the http package): non-xerror inputs produce a generic
500 with no structured body; an xerror is redacted when flagged hidden, then
written with the conventional HTTP status for its code and the JSON error
body. -/
def RespondFailed : GoError → HTTPResponse
  | .plainError _ => { statusCode := 500, body := none }
  | .xerr e =>
    let e := if e.isDetailsHidden then e.removeSensitiveDetails else e
    { statusCode := HTTPStatusFromCode e.status.code,
      body := some
        { code := e.status.code.number,
          message := e.status.message,
          status := upperSnakeCaseFrom e.status.code.goString,
          details := e.status.details } }

/- ------------------------------- Claims ------------------------------- -/

/-- C1: for every error value, isDirectlyRetryable is true iff the status
code is UNAVAILABLE, isRetryableAtHigherLevel is true iff the status code is
RESOURCE_EXHAUSTED or ABORTED, and for no code are both predicates true. -/
theorem retryability_characterization (e : Error) :
    (e.isDirectlyRetryable = true ↔ e.status.code = Code.unavailable)
    ∧ (e.isRetryableAtHigherLevel = true ↔
        (e.status.code = Code.resourceExhausted ∨ e.status.code = Code.aborted))
    ∧ ¬(e.isDirectlyRetryable = true ∧ e.isRetryableAtHigherLevel = true) := by
  obtain ⟨⟨c, m, d⟩, lvl, hid⟩ := e
  cases c <;>
    simp only [Error.isDirectlyRetryable, Error.isRetryableAtHigherLevel] <;> decide

/-- C2 (run at the failing input): on a fresh INVALID_ARGUMENT error,
AddBadRequestViolations with violation (f1, d1) and then with (f2, d2) leaves
a single BadRequest group holding only (f1, d1): the second call appends to
the copy that Status.Details() unmarshalled and the write is discarded, so
the violations of the second call are lost. -/
theorem addBadRequestViolations_drops_second_call :
    Except.bind
      (({ status := statusNew Code.invalidArgument "one or more request arguments were invalid",
          logLevel := LogLevel.info, detailsHidden := false : Error }.addBadRequestViolations
            [⟨"f1", "d1"⟩]))
      (fun e => e.addBadRequestViolations [⟨"f2", "d2"⟩])
    = Except.ok
        { status := { code := Code.invalidArgument,
                      message := "one or more request arguments were invalid",
                      details := [Detail.badRequest ⟨[⟨"f1", "d1"⟩]⟩] },
          logLevel := LogLevel.info, detailsHidden := false } := rfl

/-- C3 (run at the failing input): on a fresh ABORTED error, SetErrorInfo
with (d1, r1, m1) and then with (d2, r2, m2) leaves a single ErrorInfo group
holding the values of the FIRST call: the second call assigns to the copy
that Status.Details() unmarshalled and the write is discarded, so the values
of the second call are lost and no overwrite happens. -/
theorem setErrorInfo_second_call_discarded :
    Except.bind
      (({ status := statusNew Code.aborted "boom", logLevel := LogLevel.warn,
          detailsHidden := false : Error }.setErrorInfo ⟨"myservice.example.com"⟩
            "d1" "r1" [("k1", "v1")]))
      (fun e => e.setErrorInfo ⟨"myservice.example.com"⟩ "d2" "r2" [("k2", "v2")])
    = Except.ok
        { status := { code := Code.aborted, message := "boom",
                      details := [Detail.errorInfo ⟨"d1", "r1", [("k1", "v1")]⟩] },
          logLevel := LogLevel.warn, detailsHidden := false } := rfl

/-- C7 (counterexample): with the log level left unspecified, NewUnavailable
does not default to info and NewDeadlineExceeded does not default to warn;
both run through newErrorWithHiddenDetails, whose default is LogLevelError. -/
theorem hidden_defaults_counterexample :
    ((Factory.newUnavailable ⟨"myservice.example.com"⟩
        { error := some "service is currently unavailable",
          logLevel := LogLevel.unspecified }).map Error.logLevel ≠ some LogLevel.info)
    ∧ ((Factory.newDeadlineExceeded ⟨"myservice.example.com"⟩
        { error := some "request timed out",
          logLevel := LogLevel.unspecified }).map Error.logLevel ≠ some LogLevel.warn) := by
  decide

/-- C7 (amended): when the caller leaves the log level unspecified and
supplies a non-nil cause, NewUnavailable and NewDeadlineExceeded both produce
errors whose severity defaults to error, the common default of
newErrorWithHiddenDetails. -/
theorem hidden_defaults_are_error_level (f : Factory) (msg1 msg2 : String) :
    ((f.newUnavailable { error := some msg1, logLevel := LogLevel.unspecified }).map
        Error.logLevel = some LogLevel.error)
    ∧ ((f.newDeadlineExceeded { error := some msg2, logLevel := LogLevel.unspecified }).map
        Error.logLevel = some LogLevel.error) :=
  ⟨rfl, rfl⟩

/-- C9: constructing a Cancelled error (any log level, any factory) and
rendering it through the HTTP adapter RespondFailed yields an HTTP response
whose status code is 499. -/
theorem cancelled_renders_as_http_499 (f : Factory) (lvl : LogLevel) :
    (RespondFailed (GoError.xerr (f.newCanceledError lvl))).statusCode = 499 := rfl

/-- C10: each hidden-details constructor returns a nil error value when the
supplied cause is nil; no classification, severity or hidden flag is
produced. -/
theorem hidden_constructors_nil_cause (f : Factory) (lvl : LogLevel) :
    f.newServerDataLoss { error := none, logLevel := lvl } = none
    ∧ f.newUnknown { error := none, logLevel := lvl } = none
    ∧ f.newInternalError { error := none, logLevel := lvl } = none
    ∧ f.newUnavailable { error := none, logLevel := lvl } = none
    ∧ f.newDeadlineExceeded { error := none, logLevel := lvl } = none :=
  ⟨rfl, rfl, rfl, rfl, rfl⟩

/-- Scanning helper: when a findSome? scan of the first list yields nothing,
scanning the concatenation amounts to scanning the second list. -/
theorem findSome?_append_of_none {α β : Type} (f : α → Option β) (l1 l2 : List α)
    (h : l1.findSome? f = none) : (l1 ++ l2).findSome? f = l2.findSome? f := by
  induction l1 with
  | nil => simp
  | cons a as ih =>
    cases hfa : f a with
    | none =>
      simp only [List.findSome?, hfa] at h
      simp only [List.cons_append, List.findSome?, hfa]
      exact ih h
    | some b =>
      simp [List.findSome?, hfa] at h

/-- C4: on an error value carrying no DebugInfo group (and a non-OK code, so
that attaching details is possible), SetDebugInfo with non-empty detail d1
and then SetDebugInfo with non-empty detail d2 leaves a single DebugInfo
group whose detail is d1: the second call finds an existing group and its
write lands on the copy Status.Details() unmarshalled, so it is observably a
no-op (first-write-wins, unlike what ErrorInfo attempts). -/
theorem setDebugInfo_first_write_wins (e : Error) (d1 d2 : String)
    (s1 s2 : List String) (h1 : d1 ≠ "") (h2 : d2 ≠ "")
    (hn : e.findDebugInfo = none) (hc : e.status.code ≠ Code.ok) :
    Except.bind (e.setDebugInfo d1 s1) (fun a => a.setDebugInfo d2 s2)
      = Except.ok { e with status := { e.status with
          details := e.status.details ++ [Detail.debugInfo ⟨d1, s1⟩] } }
    ∧ ({ e with status := { e.status with
          details := e.status.details ++ [Detail.debugInfo ⟨d1, s1⟩] } : Error }.findDebugInfo
        = some ⟨d1, s1⟩) := by
  have hfind : ({ e with status := { e.status with
      details := e.status.details ++ [Detail.debugInfo ⟨d1, s1⟩] } : Error }.findDebugInfo
        = some ⟨d1, s1⟩) := by
    unfold Error.findDebugInfo at hn ⊢
    rw [findSome?_append_of_none _ _ _ hn]
    simp [List.findSome?]
  refine ⟨?_, hfind⟩
  have hstep1 : e.setDebugInfo d1 s1 = Except.ok { e with status := { e.status with
      details := e.status.details ++ [Detail.debugInfo ⟨d1, s1⟩] } } := by
    unfold Error.setDebugInfo
    rw [if_neg h1, hn]
    unfold Status.withDetails
    rw [if_neg hc]
    rfl
  rw [hstep1]
  show Error.setDebugInfo _ d2 s2 = _
  unfold Error.setDebugInfo
  rw [if_neg h2, hfind]

/-- C4 (witness): the two-call scenario run on a concrete CANCELLED error
with no pre-existing DebugInfo group leaves the DebugInfo detail at the value
of the first call. -/
theorem setDebugInfo_first_write_wins_witness :
    Except.bind
      (({ status := statusNew Code.cancelled "request canceled by the client",
          logLevel := LogLevel.debug, detailsHidden := false : Error }.setDebugInfo
            "a" ["line 1"]))
      (fun a => a.setDebugInfo "b" ["line 2"])
    = Except.ok
        { status := { code := Code.cancelled, message := "request canceled by the client",
                      details := [Detail.debugInfo ⟨"a", ["line 1"]⟩] },
          logLevel := LogLevel.debug, detailsHidden := false } :=
  (setDebugInfo_first_write_wins
    { status := statusNew Code.cancelled "request canceled by the client",
      logLevel := LogLevel.debug, detailsHidden := false }
    "a" "b" ["line 1"] ["line 2"]
    (by decide) (by decide) rfl (by decide)).1

/-- C5 (counterexample): one AddResourceInfos call per info attaches a fresh
ResourceInfo payload each time; two calls on a fresh NOT_FOUND error leave
two ResourceInfo payloads in the details collection, so the collection does
not contain at most one ResourceInfo group. -/
theorem addResourceInfos_two_groups_counterexample :
    Except.bind
      (({ status := statusNew Code.notFound "requested resource not found",
          logLevel := LogLevel.info, detailsHidden := false : Error }.addResourceInfos
            [⟨"da", "na", "ta", "oa"⟩]))
      (fun e => e.addResourceInfos [⟨"db", "nb", "tb", "ob"⟩])
    = Except.ok
        { status := { code := Code.notFound, message := "requested resource not found",
                      details := [Detail.resourceInfo ⟨"da", "na", "ta", "oa"⟩,
                                  Detail.resourceInfo ⟨"db", "nb", "tb", "ob"⟩] },
          logLevel := LogLevel.info, detailsHidden := false }
    ∧ ¬(([Detail.resourceInfo ⟨"da", "na", "ta", "oa"⟩,
          Detail.resourceInfo ⟨"db", "nb", "tb", "ob"⟩].countP
            (fun d => d.isResourceInfo)) ≤ 1) :=
  ⟨rfl, by decide⟩

/-- C5 (amended): AddResourceInfos appends one new ResourceInfo payload per
supplied info to the details collection, in input order, never merging into
or overwriting an existing payload; hence a sequence of calls accumulates as
many ResourceInfo payloads as infos were supplied in total. -/
theorem addResourceInfos_appends_per_info (e : Error) (infos : List ResourceInfo)
    (hc : e.status.code ≠ Code.ok) :
    e.addResourceInfos infos = Except.ok { e with status := { e.status with
      details := e.status.details ++ infos.map fun info =>
        Detail.resourceInfo
          ⟨info.description, info.resourceName, info.resourceType, info.owner⟩ } } := by
  induction infos generalizing e with
  | nil => simp [Error.addResourceInfos]
  | cons i is ih =>
    have h2 := ih { e with status := { e.status with
        details := e.status.details ++
          [Detail.resourceInfo ⟨i.description, i.resourceName, i.resourceType, i.owner⟩] } } hc
    simp only [Error.addResourceInfos, Status.withDetails, if_neg hc]
    rw [h2]
    simp [List.append_assoc]

/-- C5 (witness for the amended claim): the amended statement run on a fresh
NOT_FOUND error and two infos. -/
theorem addResourceInfos_appends_per_info_witness :
    ({ status := statusNew Code.notFound "requested resource not found",
       logLevel := LogLevel.info, detailsHidden := false : Error }.addResourceInfos
         [⟨"da", "na", "ta", "oa"⟩, ⟨"db", "nb", "tb", "ob"⟩])
    = Except.ok
        { status := { code := Code.notFound, message := "requested resource not found",
                      details := [Detail.resourceInfo ⟨"da", "na", "ta", "oa"⟩,
                                  Detail.resourceInfo ⟨"db", "nb", "tb", "ob"⟩] },
          logLevel := LogLevel.info, detailsHidden := false } :=
  addResourceInfos_appends_per_info
    { status := statusNew Code.notFound "requested resource not found",
      logLevel := LogLevel.info, detailsHidden := false }
    [⟨"da", "na", "ta", "oa"⟩, ⟨"db", "nb", "tb", "ob"⟩] (by decide)

/-- C6: removeSensitiveDetails strips only the ErrorInfo and DebugInfo
payloads: the surviving details form a sublist of the original collection (so
the relative order of the remaining groups is preserved), none of the
survivors is ErrorInfo or DebugInfo, every other payload (in particular every
BadRequest, PreconditionFailure, QuotaFailure and ResourceInfo group that was
present) survives, and code, message, log level and hidden flag are
untouched. -/
theorem removeSensitiveDetails_frame (e : Error) :
    (e.removeSensitiveDetails).status.details.Sublist e.status.details
    ∧ (∀ d ∈ (e.removeSensitiveDetails).status.details,
        d.isErrorInfo = false ∧ d.isDebugInfo = false)
    ∧ (∀ d ∈ e.status.details, d.isErrorInfo = false → d.isDebugInfo = false →
        d ∈ (e.removeSensitiveDetails).status.details)
    ∧ (e.removeSensitiveDetails).status.code = e.status.code
    ∧ (e.removeSensitiveDetails).status.message = e.status.message
    ∧ (e.removeSensitiveDetails).logLevel = e.logLevel
    ∧ (e.removeSensitiveDetails).detailsHidden = e.detailsHidden := by
  refine ⟨List.filter_sublist e.status.details, ?_, ?_, rfl, rfl, rfl, rfl⟩
  · intro d hd
    simp only [Error.removeSensitiveDetails, List.mem_filter] at hd
    have h2 := hd.2
    constructor
    · cases hEI : d.isErrorInfo
      · rfl
      · rw [hEI] at h2
        simp at h2
    · cases hDI : d.isDebugInfo
      · rfl
      · rw [hDI] at h2
        simp at h2
  · intro d hd h1 h2
    simp only [Error.removeSensitiveDetails, List.mem_filter]
    exact ⟨hd, by simp [h1, h2]⟩

/-- C6 (witness): the frame property instantiated at a concrete error value
carrying one BadRequest, one ErrorInfo and one DebugInfo payload. -/
theorem removeSensitiveDetails_frame_witness :
    ({ status := { code := Code.aborted, message := "m",
                   details := [Detail.badRequest ⟨[⟨"f", "d"⟩]⟩,
                               Detail.errorInfo ⟨"dm", "r", []⟩,
                               Detail.debugInfo ⟨"x", []⟩] },
       logLevel := LogLevel.warn,
       detailsHidden := true : Error }.removeSensitiveDetails).status.details.Sublist
      [Detail.badRequest ⟨[⟨"f", "d"⟩]⟩, Detail.errorInfo ⟨"dm", "r", []⟩,
       Detail.debugInfo ⟨"x", []⟩] :=
  (removeSensitiveDetails_frame
    { status := { code := Code.aborted, message := "m",
                  details := [Detail.badRequest ⟨[⟨"f", "d"⟩]⟩,
                              Detail.errorInfo ⟨"dm", "r", []⟩,
                              Detail.debugInfo ⟨"x", []⟩] },
      logLevel := LogLevel.warn, detailsHidden := true }).1

/-- Constructor helper fact: every ErrorInfo-based constructor builds its
status message from the text of the cause verbatim, whatever the reason,
metadata and configured domain are. -/
theorem newErrorInfoError_message (f : Factory) (code : Code) (hc : code ≠ Code.ok)
    (opts : ErrorInfoOptions) (msg : String) (h : opts.error = some msg) :
    (f.newErrorInfoError code opts).map (fun e => e.status.message) = some msg := by
  simp only [Factory.newErrorInfoError, h]
  by_cases hr : opts.reason = ""
  · simp [Error.setErrorInfo, hr, statusNew]
  · simp [Error.setErrorInfo, hr, Error.findErrorInfo, List.findSome?, Status.withDetails,
      statusNew, hc, Except.map]

/-- C1 (witness): the retryability characterization instantiated at a
concrete UNAVAILABLE error. -/
theorem retryability_characterization_witness :
    ({ status := statusNew Code.unavailable "service is currently unavailable",
       logLevel := LogLevel.error, detailsHidden := true : Error }.isDirectlyRetryable = true
      ↔ ({ status := statusNew Code.unavailable "service is currently unavailable",
           logLevel := LogLevel.error,
           detailsHidden := true : Error }).status.code = Code.unavailable) :=
  (retryability_characterization
    { status := statusNew Code.unavailable "service is currently unavailable",
      logLevel := LogLevel.error, detailsHidden := true }).1

/-- C8: the five hidden-details constructors (server data loss, unknown,
internal, unavailable, deadline exceeded) set the redaction flag true at
construction time, and every constructor that accepts an underlying cause
error (those five, the five ErrorInfo-based ones and the two quota-failure
ones) uses the text of the cause verbatim as the status message. -/
theorem hidden_flag_and_verbatim_messages (f : Factory) (msg : String) (lvl : LogLevel)
    (reason : String) (meta : List (String × String)) (qv : QuotaViolation)
    (qvs : List QuotaViolation) :
    ((f.newServerDataLoss { error := some msg, logLevel := lvl }).map
        Error.detailsHidden = some true)
    ∧ ((f.newUnknown { error := some msg, logLevel := lvl }).map
        Error.detailsHidden = some true)
    ∧ ((f.newInternalError { error := some msg, logLevel := lvl }).map
        Error.detailsHidden = some true)
    ∧ ((f.newUnavailable { error := some msg, logLevel := lvl }).map
        Error.detailsHidden = some true)
    ∧ ((f.newDeadlineExceeded { error := some msg, logLevel := lvl }).map
        Error.detailsHidden = some true)
    ∧ ((f.newServerDataLoss { error := some msg, logLevel := lvl }).map
        (fun e => e.status.message) = some msg)
    ∧ ((f.newUnknown { error := some msg, logLevel := lvl }).map
        (fun e => e.status.message) = some msg)
    ∧ ((f.newInternalError { error := some msg, logLevel := lvl }).map
        (fun e => e.status.message) = some msg)
    ∧ ((f.newUnavailable { error := some msg, logLevel := lvl }).map
        (fun e => e.status.message) = some msg)
    ∧ ((f.newDeadlineExceeded { error := some msg, logLevel := lvl }).map
        (fun e => e.status.message) = some msg)
    ∧ ((f.newUnauthenticatedError
          { error := some msg, logLevel := lvl, reason := reason, metadata := meta }).map
        (fun e => e.status.message) = some msg)
    ∧ ((f.newPermissionDeniedError
          { error := some msg, logLevel := lvl, reason := reason, metadata := meta }).map
        (fun e => e.status.message) = some msg)
    ∧ ((f.newAborted
          { error := some msg, logLevel := lvl, reason := reason, metadata := meta }).map
        (fun e => e.status.message) = some msg)
    ∧ ((f.newResourceExhausted
          { error := some msg, logLevel := lvl, reason := reason, metadata := meta }).map
        (fun e => e.status.message) = some msg)
    ∧ ((f.newRequestDataLoss
          { error := some msg, logLevel := lvl, reason := reason, metadata := meta }).map
        (fun e => e.status.message) = some msg)
    ∧ ((f.newQuotaFailure { error := some msg, quotaViolation := qv, logLevel := lvl }).map
        (fun e => e.status.message) = some msg)
    ∧ ((f.newQuotaFailureBatch
          { error := some msg, quotaViolations := qvs, logLevel := lvl }).map
        (fun e => e.status.message) = some msg) := by
  refine ⟨rfl, rfl, rfl, rfl, rfl, rfl, rfl, rfl, rfl, rfl, ?_, ?_, ?_, ?_, ?_, rfl, rfl⟩
  · exact newErrorInfoError_message f Code.unauthenticated (by decide)
      { error := some msg, logLevel := lvl, reason := reason, metadata := meta } msg rfl
  · exact newErrorInfoError_message f Code.permissionDenied (by decide)
      { error := some msg, logLevel := lvl, reason := reason, metadata := meta } msg rfl
  · exact newErrorInfoError_message f Code.aborted (by decide)
      { error := some msg, logLevel := lvl, reason := reason, metadata := meta } msg rfl
  · exact newErrorInfoError_message f Code.resourceExhausted (by decide)
      { error := some msg, logLevel := lvl, reason := reason, metadata := meta } msg rfl
  · exact newErrorInfoError_message f Code.dataLoss (by decide)
      { error := some msg, logLevel := lvl, reason := reason, metadata := meta } msg rfl
